import Mathlib

/-
Verification of the GCP FaaS driver (src/sebs/gcp/gcp.py) against its
natural-language specification.  The Python class is shallowly embedded:
filesystem state is an explicit association list of (filename, contents),
remote interactions become an explicit event trace, and the mutable
instance attributes become an explicit record threaded through the
operations.
-/

namespace SeBSGCP

/-- Languages supported by the packaging tables of GCP.package_code. -/
inductive Lang where
  | python
  | nodejs
deriving DecidableEq

/-- CONFIG_FILES table of GCP.package_code: the files that remain at the
build-directory root instead of being relocated into the function/
subdirectory. -/
def CONFIG_FILES : Lang → List String
  | .python => ["handler.py", ".python_packages"]
  | .nodejs => ["handler.js", "node_modules"]

/-- HANDLER table of GCP.package_code: the original handler filename and the
platform's expected entry-point filename. -/
def HANDLER : Lang → String × String
  | .python => ("handler.py", "main.py")
  | .nodejs => ("handler.js", "index.js")

/-- A directory listing: filenames paired with file contents.  Subdirectory
entries such as .python_packages are listed like files; their inner contents
are irrelevant to the properties proved here. -/
abbrev Dir := List (String × String)

/-- Contents of the named file, if present (first matching entry). -/
def lookup_file : Dir → String → Option String
  | [], _ => none
  | f :: d, n => if f.1 == n then some f.2 else lookup_file d n

/-- Remove every entry with the given filename. -/
def remove_file : Dir → String → Dir
  | [], _ => []
  | f :: d, n => if f.1 == n then remove_file d n else f :: remove_file d n

/-- Write a file: overwrite any existing entry of that name. -/
def set_file (d : Dir) (n c : String) : Dir :=
  remove_file d n ++ [(n, c)]

/-- Model of shutil.move used as a rename inside one directory: fails when
the source file is missing, overwrites any existing destination. -/
def rename_file (d : Dir) (src dst : String) : Option Dir :=
  match lookup_file d src with
  | none => none
  | some c => some (set_file (remove_file d src) dst c)

/-- Outcome of GCP.package_code: a produced archive (path relative to the
build directory, and the byte size reported by os.path.getsize), or the
stage at which the call raised. -/
inductive PkgOutcome where
  | ok (archive : String) (size : Nat)
  | failed_zip
  | failed_fs
deriving DecidableEq

/-- GCP.package_code (src/sebs/gcp/gcp.py lines 116-156) acting on the
build-directory state.  Inputs: the language, the benchmark name, the root
listing produced by benchmark.build(), whether the external zip process
succeeds, and the byte size reported for the archive.  Output: the final
root listing, the listing of the function/ subdirectory, and the outcome.

Modelling notes kept faithful to the source:
the relocation loop iterates over a listing taken after os.makedirs, so it
also visits the freshly created function/ entry, whose shutil.move onto
itself is a same-file no-op; os.makedirs raises when function/ already
exists (failed_fs); a fresh requirements.txt is written at the root after
the relocation loop; the handler is renamed to the entry-point name, the
zip archive is created at the root, and only on the success path is the
handler renamed back - the source has no try/finally around the zip step,
so a failing zip leaves the handler under the entry-point name. -/
def package_steps (package_config : List String)
    (old_name new_name benchmark : String) (root0 : Dir)
    (zip_ok : Bool) (zip_size : Nat) : Dir × Dir × PkgOutcome :=
  let moved := root0.filter (fun f => ! package_config.contains f.1)
  let root1 := root0.filter (fun f => package_config.contains f.1)
  let root2 := set_file root1 "requirements.txt" "google-cloud-storage"
  match rename_file root2 old_name new_name with
  | none => (root2, moved, .failed_fs)
  | some root3 =>
    if zip_ok then
      let archive := benchmark ++ ".zip"
      let root4 := set_file root3 archive "zip-archive"
      match rename_file root4 new_name old_name with
      | none => (root4, moved, .failed_fs)
      | some root5 => (root5, moved, .ok archive zip_size)
    else (root3, moved, .failed_zip)

/-- See the modelling notes above: package_code selects the per-language
tables and, when os.makedirs does not fail on a stale function/ entry, runs
the packaging steps. -/
def package_code (lang : Lang) (benchmark : String) (root0 : Dir)
    (zip_ok : Bool) (zip_size : Nat) : Dir × Dir × PkgOutcome :=
  if root0.any (fun f => f.1 == "function") then (root0, [], .failed_fs)
  else
    package_steps (CONFIG_FILES lang) (HANDLER lang).1 (HANDLER lang).2
      benchmark root0 zip_ok zip_size

/-- Observable side effects issued against the external collaborators
(object storage, the remote function registry, the local cache, the clock).
package_code is recorded as a single event here; its internal filesystem
behaviour is modelled separately by SeBSGCP.package_code above. -/
inductive Event where
  | package_code
  | storage_add_input_bucket
  | storage_upload (bucket object : String)
  | registry_list
  | registry_create (nm source_archive_url : String)
  | registry_patch (nm source_archive_url : String)
  | registry_get (nm : String)
  | registry_call (nm : String)
  | cache_add
  | cache_update
  | sleep (secs : Nat)
deriving DecidableEq

def is_upload_ev : Event → Bool
  | .storage_upload _ _ => true
  | _ => false

def is_create_ev : Event → Bool
  | .registry_create _ _ => true
  | _ => false

def is_patch_ev : Event → Bool
  | .registry_patch _ _ => true
  | _ => false

def is_get_ev : Event → Bool
  | .registry_get _ => true
  | _ => false

def is_call_ev : Event → Bool
  | .registry_call _ => true
  | _ => false

def is_sleep_ev : Event → Bool
  | .sleep _ => true
  | _ => false

/-- The per-language function configuration persisted in a cache entry
(the language_config dictionary of cache_client.add_function, also the
cached_config dictionary mutated on the stale path of get_function). -/
structure CachedConfig where
  name : String
  code_size : Nat
  runtime : String
  memory : Nat
  timeout : Nat
  hash : String
  url : String
deriving DecidableEq

/-- The slice of the Benchmark code package object that get_function reads:
identity, cache flags, cached configuration, build configuration and the
on-disk directory size reported by Benchmark.directory_size. -/
structure CodePackage where
  benchmark : String
  language_name : String
  language_version : String
  hash : String
  is_cached : Bool
  cached_config : CachedConfig
  timeout : Nat
  memory : Nat
  code_location : String
  directory_size : Nat
deriving DecidableEq

/-- Modelled from the spec: Benchmark.is_cached_valid is defined in
sebs/benchmark.py, which is not among the analysed sources.  Per the spec
(the data-model invariant), a cached deployment is valid exactly when the
source hash recorded in the cache entry equals the benchmark's current
hash. -/
def is_cached_valid (cp : CodePackage) : Bool :=
  cp.cached_config.hash == cp.hash

/-- The provider configuration fields read by get_function. -/
structure GCPConfig where
  region : String
  project_name : String
deriving DecidableEq

/-- Responses of the external collaborators during one get_function call:
the input bucket returned by storage.add_input_bucket, the archive byte
size returned by package_code, the invocation URL returned by the registry
get, the function names returned by the registry list, and the storage
object's current bucket sets recorded by cache_client.add_function. -/
structure Env where
  bucket : String
  package_size : Nat
  invoke_url : String
  existing_functions : List String
  input_buckets : List String
  output_buckets : List String
deriving DecidableEq

/-- The deployed-function handle constructed by get_function
(GCPFunction(func_name, benchmark, hash, self)). -/
structure GCPFunction where
  name : String
  benchmark : String
  hash : String
deriving DecidableEq

/-- What a get_function call writes to the local cache. -/
inductive CacheAction where
  | no_write
  | update (cfg : CachedConfig)
  | add (cfg : CachedConfig) (input_buckets output_buckets : List String)
deriving DecidableEq

/-- A persisted cache entry: the per-language function configuration plus
the bucket references recorded in its storage configuration. -/
structure CacheEntry where
  cfg : CachedConfig
  input_buckets : List String
  output_buckets : List String
deriving DecidableEq

/-- Modelled from the spec: Cache.update_function and Cache.add_function
live in sebs/cache.py, which is not among the analysed sources.  Per the
spec, the update path overwrites the per-language function configuration
and preserves the entry's storage (bucket) configuration, while the add
path records a brand-new entry with both parts. -/
def apply_cache_action : CacheAction → CacheEntry → CacheEntry
  | .no_write, e => e
  | .update cfg, e => { e with cfg := cfg }
  | .add cfg ib ob, _ => ⟨cfg, ib, ob⟩

/-- The fully qualified resource path of a function,
projects/P/locations/L/functions/NAME. -/
def full_func_name (project_name location func_name : String) : String :=
  "projects/" ++ project_name ++ "/locations/" ++ location
    ++ "/functions/" ++ func_name

/-- The sourceArchiveUrl built for create and patch bodies. -/
def gs_url (bucket object : String) : String :=
  "gs://" ++ bucket ++ "/" ++ object

/-- Python str.replace for a single-character pattern: every occurrence of
the character a is replaced by b. -/
def replace_char (s : String) (a b : Char) : String :=
  ⟨s.data.map fun c => if c = a then b else c⟩

/-- The function-name derivation on the uncached path of get_function
(lines 231-235): format foo_BENCHMARK-LANGUAGE-MEMORY, then replace every
hyphen and every dot by an underscore. -/
def derive_func_name (benchmark language_name : String) (memory : Nat) : String :=
  let fn := "foo_" ++ benchmark ++ "-" ++ language_name ++ "-" ++ toString memory
  let fn := replace_char fn '-' '_'
  replace_char fn '.' '_'

/-- The basename of the archive path returned by package_code,
os.path.basename of DIRECTORY/BENCHMARK.zip. -/
def code_package_name (cp : CodePackage) : String :=
  cp.benchmark ++ ".zip"

/-- GCP.update_function (lines 341-376): query storage.add_input_bucket for
the input bucket name, then issue a single registry patch whose body's
sourceArchiveUrl is gs://bucket/code_package_name.  No storage upload is
performed by this method. -/
def update_function_trace (ffn bucket pkg_name : String) : List Event :=
  [Event.storage_add_input_bucket, Event.registry_patch ffn (gs_url bucket pkg_name)]

/-- GCP.get_function (lines 172-336): the cache-consult decision tree.
Returns the constructed handle, the cache write performed, and the trace of
external side effects in program order.

Branch 1 (cached and valid): construct the handle from the cached name and
the benchmark hash, with no external calls.
Branch 2 (cached, stale): package the code, call update_function (which
allocates the bucket name and issues the patch - no upload), overwrite the
cached configuration's code_size (with Benchmark.directory_size), timeout,
memory and hash, and persist it with cache_client.update_function.
Branch 3 (uncached): derive the function name, package the code, allocate
the input bucket, upload the archive, list the registry; patch via
update_function when the full name is already listed, create otherwise;
get the function to read its invocation URL and record a brand-new cache
entry via cache_client.add_function. -/
def get_function (cfg : GCPConfig) (env : Env) (cp : CodePackage) :
    GCPFunction × CacheAction × List Event :=
  let benchmark := cp.benchmark
  let project_name := cfg.project_name
  let location := cfg.region
  if cp.is_cached && is_cached_valid cp then
    let func_name := cp.cached_config.name
    (⟨func_name, benchmark, cp.hash⟩, .no_write, [])
  else if cp.is_cached then
    let func_name := cp.cached_config.name
    let ffn := full_func_name project_name location func_name
    let pkg_name := code_package_name cp
    let code_size := cp.directory_size
    let new_cfg := { cp.cached_config with
      code_size := code_size, timeout := cp.timeout,
      memory := cp.memory, hash := cp.hash }
    (⟨func_name, benchmark, cp.hash⟩, .update new_cfg,
      [Event.package_code]
        ++ update_function_trace ffn env.bucket pkg_name
        ++ [Event.cache_update])
  else
    let func_name := derive_func_name benchmark cp.language_name cp.memory
    let pkg_name := code_package_name cp
    let ffn := full_func_name project_name location func_name
    let new_cfg : CachedConfig :=
      { name := func_name, code_size := env.package_size,
        runtime := cp.language_version, memory := cp.memory,
        timeout := cp.timeout, hash := cp.hash, url := env.invoke_url }
    (⟨func_name, benchmark, cp.hash⟩,
      .add new_cfg env.input_buckets env.output_buckets,
      [Event.package_code, Event.storage_add_input_bucket,
          Event.storage_upload env.bucket pkg_name, Event.registry_list]
        ++ (if env.existing_functions.contains ffn then
              update_function_trace ffn env.bucket pkg_name
            else [Event.registry_create ffn (gs_url env.bucket pkg_name)])
        ++ [Event.registry_get ffn, Event.cache_add])

/-- The mutable instance attributes of the GCP object that invoke_sync
reads.  Each is none until some method assigns it; reading a none field
models Python's AttributeError. -/
structure GCPState where
  func_name : Option String
  project_name : Option String
  location : Option String
deriving DecidableEq

/-- The fresh GCP instance: none of the three attributes is set. -/
def initial_state : GCPState :=
  ⟨none, none, none⟩

/-- The public methods of the GCP class (initialize is abbreviated init). -/
inductive Method where
  | init
  | get_storage
  | package_code
  | get_function
  | update_function
  | prepare_experiment
  | invoke_sync
  | invoke_async
  | shutdown
  | download_metrics
  | create_function_copies
deriving DecidableEq

/-- Effect of each GCP method on the three attributes read by invoke_sync:
get_function assigns self.location and self.project_name from the provider
configuration (lines 174-175); no method of the class assigns
self.func_name. -/
def method_step (cfg : GCPConfig) : Method → GCPState → GCPState
  | .get_function, st =>
      { st with location := some cfg.region,
                project_name := some cfg.project_name }
  | _, st => st

/-- Run a sequence of method calls from a starting state. -/
def run_methods (cfg : GCPConfig) (ms : List Method) (st : GCPState) : GCPState :=
  ms.foldl (fun s m => method_step cfg m s) st

/-- Errors raised by invoke_sync: an AttributeError naming the missing
instance attribute, or the RuntimeError raised on an invocation failure
(carrying the name that was interpolated into the error log). -/
inductive InvokeError where
  | attribute_error (attr : String)
  | invocation_failed (logged_name : String)
deriving DecidableEq

/-- The value returned by a successful invoke_sync: the response's result
payload and the client-measured wall-clock time in microseconds. -/
structure InvokeResult where
  ret : String
  client_time : Nat
deriving DecidableEq

/-- Building the full function name inside invoke_sync (lines 383-386):
the f-string reads self.project_name, self.location and self.func_name in
that order; the first missing attribute raises AttributeError. -/
def invoke_full_name (st : GCPState) : Except InvokeError String :=
  match st.project_name with
  | none => .error (.attribute_error "project_name")
  | some p =>
    match st.location with
    | none => .error (.attribute_error "location")
    | some l =>
      match st.func_name with
      | none => .error (.attribute_error "func_name")
      | some f => .ok (full_func_name p l f)

/-- The readiness poll of invoke_sync (lines 397-403): execute the registry
get; stop when the reported status is ACTIVE, otherwise sleep 5 seconds and
poll again.  The source loop has no retry bound; fuel counts how many get
requests we are willing to unfold, and none means the loop is still running
after that many polls.  statuses i is the status reported by the i-th get. -/
def pollLoop (statuses : Nat → String) (ffn : String) : Nat → Nat → Option (List Event)
  | 0, _ => none
  | fuel + 1, i =>
    if statuses i = "ACTIVE" then some [Event.registry_get ffn]
    else (pollLoop statuses ffn fuel (i + 1)).map
      (fun tr => Event.registry_get ffn :: Event.sleep 5 :: tr)

/-- The trace produced by a poll that sees n non-ACTIVE statuses and then
an ACTIVE one: n (get, sleep 5) rounds followed by a final get. -/
def pollTraceN (ffn : String) : Nat → List Event
  | 0 => [Event.registry_get ffn]
  | n + 1 => Event.registry_get ffn :: Event.sleep 5 :: pollTraceN ffn n

/-- The call response: the error field may be absent, and the result
payload is as given by the registry protocol for call (result or error). -/
structure CallResponse where
  result : String
  error : Option String
deriving DecidableEq

/-- The failure test of invoke_sync (line 417): the response has an error
key and its value is a non-empty string. -/
def invoke_error_check (resp : CallResponse) : Bool :=
  match resp.error with
  | some e => e != ""
  | none => false

/-- What invoke_sync does with the call response (lines 417-426): raise
RuntimeError (logging the name argument) on a non-empty error field,
otherwise return the result payload and (end - begin) divided by a
one-microsecond timedelta.  tb and te are the wall-clock readings around
req.execute(), in microseconds. -/
def invoke_outcome (resp : CallResponse) (nm : String) (tb te : Nat) :
    Except InvokeError InvokeResult :=
  if invoke_error_check resp then .error (.invocation_failed nm)
  else .ok ⟨resp.result, te - tb⟩

/-- GCP.invoke_sync (lines 382-426).  Inputs: the instance state, the name
argument (used only in the failure log), the payload, the statuses the
registry reports to successive gets, the poll fuel, the call response and
the two clock readings.  Output: none when the readiness poll is still
running after fuel gets; otherwise the trace of external calls and either
the raised error or the returned result. -/
def invoke_sync (st : GCPState) (nm _payload : String) (statuses : Nat → String)
    (fuel : Nat) (resp : CallResponse) (tb te : Nat) :
    Option (List Event × Except InvokeError InvokeResult) :=
  match invoke_full_name st with
  | .error e => some ([], .error e)
  | .ok ffn =>
    match pollLoop statuses ffn fuel 0 with
    | none => none
    | some ptrace =>
      some (ptrace ++ [Event.registry_call ffn], invoke_outcome resp nm tb te)

/-- One (mean, sample count) pair read from a distribution-valued data
point of the telemetry backend.  The numeric values are carried opaquely;
modelling them as integers loses nothing for the accumulation properties. -/
structure MetricPoint where
  mean : Int
  count : Int
deriving DecidableEq

/-- One time series returned by list_time_series: its resource labels and
its data points. -/
structure TimeSeries where
  resource_labels : List (String × String)
  points : List MetricPoint

/-- The query interval handed to list_time_series, in seconds. -/
structure TimeInterval where
  start_seconds : Int
  end_seconds : Int
deriving DecidableEq

/-- The metric filter string for execution times. -/
def exec_time_filter : String :=
  "metric.type = \"cloudfunctions.googleapis.com/function/execution_times\""

/-- The metric filter string for user memory. -/
def user_memory_filter : String :=
  "metric.type = \"cloudfunctions.googleapis.com/function/user_memory_bytes\""

/-- The per-function accumulator entry of the requests mapping. -/
structure FunctionMetrics where
  execution_times : List MetricPoint
  user_memory_bytes : List MetricPoint
deriving DecidableEq

/-- The inner loops of download_metrics for one metric type: for every
series whose function_name resource label (dict get, none when absent)
equals the target function, append every data point's (mean, count) pair,
in order. -/
def collect_points (function_name : String) (series : List TimeSeries) :
    List MetricPoint :=
  (series.filter
      (fun ts => ts.resource_labels.lookup "function_name" == some function_name)).flatMap
    (fun ts => ts.points)

/-- GCP.download_metrics (lines 434-479).  The backend maps a metric filter
string and an interval to the returned time series; requests is the in/out
accumulator mapping a function name to its metric buckets.  The interval is
built from int(start_time - 60) and int(end_time + 60); each of the two
metric queries appends its collected points to the target function's
existing list (the += on the accumulator entries).  Returns the queried
interval and the updated accumulator. -/
def download_metrics (function_name : String)
    (_deployment_config : List (String × String))
    (start_time end_time : Int)
    (backend : String → TimeInterval → List TimeSeries)
    (requests : String → FunctionMetrics) :
    TimeInterval × (String → FunctionMetrics) :=
  let interval : TimeInterval := ⟨start_time - 60, end_time + 60⟩
  let exec_points := collect_points function_name (backend exec_time_filter interval)
  let requests1 : String → FunctionMetrics := fun n =>
    if n = function_name then
      { requests n with
        execution_times := (requests n).execution_times ++ exec_points }
    else requests n
  let mem_points := collect_points function_name (backend user_memory_filter interval)
  let requests2 : String → FunctionMetrics := fun n =>
    if n = function_name then
      { requests1 n with
        user_memory_bytes := (requests1 n).user_memory_bytes ++ mem_points }
    else requests1 n
  (interval, requests2)

/-- A concrete build-directory listing used to evaluate packaging claims. -/
def pkg_root0 : Dir :=
  [("handler.py", "HANDLER-SRC"), ("requirements.txt", "orig-reqs"),
   (".python_packages", "pkgs")]

theorem lookup_file_append (d₁ d₂ : Dir) (n : String) :
    lookup_file (d₁ ++ d₂) n =
      (match lookup_file d₁ n with
        | some c => some c
        | none => lookup_file d₂ n) := by
  induction d₁ with
  | nil => simp [lookup_file]
  | cons f d ih => by_cases h : f.1 == n <;> simp [lookup_file, h, ih]

theorem lookup_file_remove_self (d : Dir) (n : String) :
    lookup_file (remove_file d n) n = none := by
  induction d with
  | nil => simp [remove_file, lookup_file]
  | cons f d ih => by_cases h : f.1 == n <;> simp [remove_file, lookup_file, h, ih]

theorem lookup_file_remove_ne (d : Dir) {n m : String} (h : m ≠ n) :
    lookup_file (remove_file d n) m = lookup_file d m := by
  induction d with
  | nil => simp [remove_file]
  | cons f d ih =>
    by_cases hn : f.1 == n
    · have : ¬(f.1 == m) = true := by
        simp only [beq_iff_eq] at hn ⊢
        exact fun hm => h (hm ▸ hn ▸ rfl)
      simp [remove_file, lookup_file, hn, this, ih]
    · simp [remove_file, lookup_file, hn, ih]

theorem lookup_file_set_self (d : Dir) (n c : String) :
    lookup_file (set_file d n c) n = some c := by
  rw [set_file, lookup_file_append, lookup_file_remove_self]
  simp [lookup_file]

theorem lookup_file_set_ne (d : Dir) {n m : String} (c : String) (h : m ≠ n) :
    lookup_file (set_file d n c) m = lookup_file d m := by
  rw [set_file, lookup_file_append, lookup_file_remove_ne d h]
  cases hd : lookup_file d m <;>
    simp [lookup_file, show ¬(n == m) = true by simp [beq_iff_eq]; exact fun e => h e.symm]

theorem zip_name_ne {s : String} (b : String) (hz : 'z' ∉ s.data) :
    b ++ ".zip" ≠ s := by
  intro he
  apply hz
  rw [← he]
  show 'z' ∈ (b ++ ".zip").data
  have hd : (b ++ ".zip").data = b.data ++ ".zip".data := rfl
  rw [hd]
  exact List.mem_append.mpr (Or.inr (by decide))

/-- C1: the claim states that after package_code terminates, normally or by
raising, the original handler filename is present in the build directory.
Evaluating package_code at a concrete python build directory whose
archiving (zip) step fails shows the opposite: the handler remains under
the platform entry-point name main.py and handler.py is absent, because the
source has no try/finally restoring the rename on the failure path. -/
theorem c1_rename_not_restored_on_zip_failure :
    lookup_file (package_code .python "b1" pkg_root0 false 0).1 "handler.py" = none
    ∧ lookup_file (package_code .python "b1" pkg_root0 false 0).1 "main.py"
        = some "HANDLER-SRC"
    ∧ (package_code .python "b1" pkg_root0 false 0).2.2 = PkgOutcome.failed_zip := by
  decide

/-- C10: for every language, benchmark and build-directory listing (fresh
in the sense that no stale function/ entry blocks os.makedirs), and whether
or not the archiving step succeeds, package_code writes the dependency
manifest requirements.txt at the build-directory root with content
google-cloud-storage. -/
theorem lookup_req_package_steps (package_config : List String)
    (old_name new_name benchmark : String) (root0 : Dir)
    (zip_ok : Bool) (zip_size : Nat)
    (h1 : "requirements.txt" ≠ old_name) (h2 : "requirements.txt" ≠ new_name)
    (h3 : "requirements.txt" ≠ benchmark ++ ".zip")
    (h4 : new_name ≠ benchmark ++ ".zip") :
    lookup_file
      (package_steps package_config old_name new_name benchmark root0 zip_ok zip_size).1
      "requirements.txt" = some "google-cloud-storage" := by
  unfold package_steps
  set root1 := root0.filter (fun f => package_config.contains f.1) with hroot1
  set root2 := set_file root1 "requirements.txt" "google-cloud-storage" with hroot2
  have hr2 : lookup_file root2 "requirements.txt" = some "google-cloud-storage" := by
    rw [hroot2]; exact lookup_file_set_self _ _ _
  cases hlk : lookup_file root2 old_name with
  | none => simp [rename_file, hlk, hr2]
  | some c =>
    simp only [rename_file, hlk]
    set root3 := set_file (remove_file root2 old_name) new_name c with hroot3
    have hr3 : lookup_file root3 "requirements.txt" = some "google-cloud-storage" := by
      rw [hroot3, lookup_file_set_ne _ _ h2, lookup_file_remove_ne _ h1, hr2]
    cases zip_ok with
    | false => simpa using hr3
    | true =>
      simp only [if_true]
      set root4 := set_file root3 (benchmark ++ ".zip") "zip-archive" with hroot4
      have hlk4 : lookup_file root4 new_name = some c := by
        rw [hroot4, lookup_file_set_ne _ _ h4, hroot3, lookup_file_set_self]
      simp only [rename_file, hlk4]
      rw [lookup_file_set_ne _ _ h1, lookup_file_remove_ne _ h2, hroot4,
        lookup_file_set_ne _ _ h3, hr3]

/-- C10: for every language, benchmark and build-directory listing (fresh
in the sense that no stale function/ entry blocks os.makedirs), and whether
or not the archiving step succeeds, package_code writes the dependency
manifest requirements.txt at the build-directory root with content
google-cloud-storage. -/
theorem c10_requirements_injected (lang : Lang) (benchmark : String) (root0 : Dir)
    (zip_ok : Bool) (zip_size : Nat)
    (hfresh : root0.any (fun f => f.1 == "function") = false) :
    lookup_file (package_code lang benchmark root0 zip_ok zip_size).1
      "requirements.txt" = some "google-cloud-storage" := by
  have hz : "requirements.txt" ≠ benchmark ++ ".zip" :=
    fun e => zip_name_ne benchmark (by decide) e.symm
  cases lang <;>
  · simp only [package_code, hfresh, Bool.false_eq_true, if_false]
    exact lookup_req_package_steps _ _ _ _ _ _ _ (by decide) (by decide) hz
      (fun e => zip_name_ne benchmark (by decide) e.symm)

/-- Witness for C10 at a concrete python build directory with a succeeding
zip step. -/
theorem c10_requirements_injected_witness :
    (pkg_root0.any (fun f => f.1 == "function") = false)
    ∧ lookup_file (package_code .python "b1" pkg_root0 true 3).1
        "requirements.txt" = some "google-cloud-storage" :=
  ⟨by decide, c10_requirements_injected .python "b1" pkg_root0 true 3 (by decide)⟩

/-- A concrete provider configuration used in witnesses. -/
def cfg0 : GCPConfig := ⟨"us-east1", "proj0"⟩

/-- Concrete collaborator responses used in witnesses. -/
def env0 : Env := ⟨"bucket0", 10, "https://invoke.url", [], ["in0"], ["out0"]⟩

/-- A concrete cached configuration used in witnesses. -/
def cc0 : CachedConfig := ⟨"fn0", 5, "3.8", 128, 30, "h0", "u0"⟩

/-- A code package whose cache entry exists and matches the current hash. -/
def cp_valid : CodePackage := ⟨"b1", "python", "3.8", "h0", true, cc0, 60, 256, "loc", 7⟩

/-- A code package whose cache entry exists but records a different hash. -/
def cp_stale : CodePackage := { cp_valid with hash := "h1" }

/-- A code package with no cache entry. -/
def cp_uncached : CodePackage := { cp_valid with is_cached := false }

theorem replace_char_data (s : String) (a b : Char) :
    (replace_char s a b).data = s.data.map (fun c => if c = a then b else c) := rfl

theorem replace_char_no_target (s : String) (a b : Char) (hab : b ≠ a) :
    ∀ c ∈ (replace_char s a b).data, c ≠ a := by
  intro c hc
  rw [replace_char_data] at hc
  obtain ⟨d, _, hd⟩ := List.mem_map.mp hc
  subst hd
  by_cases h : d = a <;> simp [h, hab]

theorem replace_char_preserves_ne (s : String) (a b x : Char)
    (hx : ∀ c ∈ s.data, c ≠ x) (hb : b ≠ x) :
    ∀ c ∈ (replace_char s a b).data, c ≠ x := by
  intro c hc
  rw [replace_char_data] at hc
  obtain ⟨d, hdm, hd⟩ := List.mem_map.mp hc
  subst hd
  by_cases h : d = a <;> simp [h, hb, hx d hdm]

theorem derive_func_name_chars (b l : String) (m : Nat) :
    ∀ c ∈ (derive_func_name b l m).data, c ≠ '-' ∧ c ≠ '.' := by
  intro c hc
  have hc2 : c ∈ (replace_char
      (replace_char ("foo_" ++ b ++ "-" ++ l ++ "-" ++ toString m) '-' '_')
      '.' '_').data := hc
  refine ⟨?_, ?_⟩
  · exact replace_char_preserves_ne _ '.' '_' '-'
      (replace_char_no_target _ '-' '_' (by decide)) (by decide) c hc2
  · exact replace_char_no_target _ '.' '_' (by decide) c hc2

/-- C4: when the cache entry exists and its recorded hash matches the
benchmark's current hash, get_function performs no external side effect at
all (no registry call, no packaging, no storage operation, no cache write)
and returns the handle built from the cached name and the benchmark hash. -/
theorem c4_cached_valid_reuse (cfg : GCPConfig) (env : Env) (cp : CodePackage)
    (hc : cp.is_cached = true) (hv : is_cached_valid cp = true) :
    get_function cfg env cp
      = (⟨cp.cached_config.name, cp.benchmark, cp.hash⟩, CacheAction.no_write, []) := by
  simp [get_function, hc, hv]

/-- Witness for C4 at a concrete valid-cache package. -/
theorem c4_cached_valid_reuse_witness :
    (cp_valid.is_cached = true ∧ is_cached_valid cp_valid = true)
    ∧ get_function cfg0 env0 cp_valid
        = (⟨"fn0", "b1", "h0"⟩, CacheAction.no_write, []) :=
  ⟨⟨rfl, by decide⟩, c4_cached_valid_reuse cfg0 env0 cp_valid rfl (by decide)⟩

/-- C5: when the cache entry exists but its recorded hash differs from the
current one, get_function issues exactly one registry patch and no create,
and the cache write overwrites exactly the entry's code_size (with the
directory size), timeout, memory and hash (now the benchmark's hash),
leaving name, url and runtime unchanged; applying the write to a persisted
entry preserves its bucket references. -/
theorem c5_stale_cache_update (cfg : GCPConfig) (env : Env) (cp : CodePackage)
    (hc : cp.is_cached = true) (hv : is_cached_valid cp = false) :
    ((get_function cfg env cp).2.2.countP is_patch_ev = 1
      ∧ (get_function cfg env cp).2.2.countP is_create_ev = 0)
    ∧ (∃ ncfg : CachedConfig,
        (get_function cfg env cp).2.1 = CacheAction.update ncfg
        ∧ ncfg.code_size = cp.directory_size ∧ ncfg.timeout = cp.timeout
        ∧ ncfg.memory = cp.memory ∧ ncfg.hash = cp.hash
        ∧ ncfg.name = cp.cached_config.name ∧ ncfg.url = cp.cached_config.url
        ∧ ncfg.runtime = cp.cached_config.runtime)
    ∧ (∀ entry : CacheEntry,
        (apply_cache_action (get_function cfg env cp).2.1 entry).input_buckets
            = entry.input_buckets
        ∧ (apply_cache_action (get_function cfg env cp).2.1 entry).output_buckets
            = entry.output_buckets) := by
  refine ⟨⟨?_, ?_⟩,
    ⟨{ cp.cached_config with
        code_size := cp.directory_size, timeout := cp.timeout,
        memory := cp.memory, hash := cp.hash },
      ?_, rfl, rfl, rfl, rfl, rfl, rfl, rfl⟩, ?_⟩ <;>
    simp [get_function, hc, hv, update_function_trace, is_patch_ev, is_create_ev,
      apply_cache_action, List.countP_append, List.countP_cons, List.countP_nil]

/-- Witness for C5 at a concrete stale-cache package. -/
theorem c5_stale_cache_update_witness :
    (cp_stale.is_cached = true ∧ is_cached_valid cp_stale = false)
    ∧ ((get_function cfg0 env0 cp_stale).2.2.countP is_patch_ev = 1
        ∧ (get_function cfg0 env0 cp_stale).2.2.countP is_create_ev = 0)
    ∧ (∃ ncfg : CachedConfig,
        (get_function cfg0 env0 cp_stale).2.1 = CacheAction.update ncfg
        ∧ ncfg.code_size = cp_stale.directory_size ∧ ncfg.timeout = cp_stale.timeout
        ∧ ncfg.memory = cp_stale.memory ∧ ncfg.hash = cp_stale.hash
        ∧ ncfg.name = cp_stale.cached_config.name
        ∧ ncfg.url = cp_stale.cached_config.url
        ∧ ncfg.runtime = cp_stale.cached_config.runtime)
    ∧ (∀ entry : CacheEntry,
        (apply_cache_action (get_function cfg0 env0 cp_stale).2.1 entry).input_buckets
            = entry.input_buckets
        ∧ (apply_cache_action (get_function cfg0 env0 cp_stale).2.1 entry).output_buckets
            = entry.output_buckets) :=
  ⟨⟨rfl, by decide⟩, c5_stale_cache_update cfg0 env0 cp_stale rfl (by decide)⟩

/-- C2: the claim says every update path stages the archive in object
storage before the registry patch.  On the stale-cache path of
get_function this fails: the trace carries exactly one patch and not a
single storage upload, because update_function only queries the bucket
name and never uploads (only the uncached path uploads, at line 241). -/
theorem c2_stale_update_without_upload (cfg : GCPConfig) (env : Env) (cp : CodePackage)
    (hc : cp.is_cached = true) (hv : is_cached_valid cp = false) :
    (get_function cfg env cp).2.2.countP is_patch_ev = 1
    ∧ (get_function cfg env cp).2.2.countP is_upload_ev = 0 := by
  simp [get_function, hc, hv, update_function_trace, is_patch_ev, is_upload_ev,
    List.countP_append, List.countP_cons, List.countP_nil]

/-- Witness for C2's evaluation at a concrete stale-cache package. -/
theorem c2_stale_update_without_upload_witness :
    (cp_stale.is_cached = true ∧ is_cached_valid cp_stale = false)
    ∧ (get_function cfg0 env0 cp_stale).2.2.countP is_patch_ev = 1
    ∧ (get_function cfg0 env0 cp_stale).2.2.countP is_upload_ev = 0 :=
  ⟨⟨rfl, by decide⟩, c2_stale_update_without_upload cfg0 env0 cp_stale rfl (by decide)⟩

/-- C6: on the uncached path the handle's name is the pure derivation from
(benchmark, language, memory); the same triple yields the same name on any
other uncached call; every derived name is free of hyphens and dots; and
the triple (b1, python, 256) derives foo_b1_python_256. -/
theorem c6_deterministic_name (cfg : GCPConfig) (env : Env) (cp : CodePackage)
    (hc : cp.is_cached = false) :
    (get_function cfg env cp).1.name
        = derive_func_name cp.benchmark cp.language_name cp.memory
    ∧ (∀ (cfg2 : GCPConfig) (env2 : Env) (cp2 : CodePackage),
        cp2.is_cached = false → cp2.benchmark = cp.benchmark →
        cp2.language_name = cp.language_name → cp2.memory = cp.memory →
        (get_function cfg2 env2 cp2).1.name = (get_function cfg env cp).1.name)
    ∧ (∀ (b l : String) (m : Nat),
        ∀ c ∈ (derive_func_name b l m).data, c ≠ '-' ∧ c ≠ '.')
    ∧ derive_func_name "b1" "python" 256 = "foo_b1_python_256" := by
  refine ⟨by simp [get_function, hc], ?_, fun b l m => derive_func_name_chars b l m,
    by decide⟩
  intro cfg2 env2 cp2 hc2 hb hl hm
  simp [get_function, hc, hc2, hb, hl, hm]

/-- Witness for C6 at a concrete uncached package. -/
theorem c6_deterministic_name_witness :
    (cp_uncached.is_cached = false)
    ∧ ((get_function cfg0 env0 cp_uncached).1.name
          = derive_func_name cp_uncached.benchmark cp_uncached.language_name
              cp_uncached.memory
        ∧ (∀ (cfg2 : GCPConfig) (env2 : Env) (cp2 : CodePackage),
            cp2.is_cached = false → cp2.benchmark = cp_uncached.benchmark →
            cp2.language_name = cp_uncached.language_name →
            cp2.memory = cp_uncached.memory →
            (get_function cfg2 env2 cp2).1.name
              = (get_function cfg0 env0 cp_uncached).1.name)
        ∧ (∀ (b l : String) (m : Nat),
            ∀ c ∈ (derive_func_name b l m).data, c ≠ '-' ∧ c ≠ '.')
        ∧ derive_func_name "b1" "python" 256 = "foo_b1_python_256") :=
  ⟨rfl, c6_deterministic_name cfg0 env0 cp_uncached rfl⟩

theorem pollLoop_active (statuses : Nat → String) (ffn : String) :
    ∀ N i fuel, (∀ j, j < N → statuses (i + j) ≠ "ACTIVE") →
      statuses (i + N) = "ACTIVE" → N < fuel →
      pollLoop statuses ffn fuel i = some (pollTraceN ffn N) := by
  intro N
  induction N with
  | zero =>
    intro i fuel _ hact hlt
    obtain ⟨f, rfl⟩ : ∃ f, fuel = f + 1 := ⟨fuel - 1, by omega⟩
    have h0 : statuses i = "ACTIVE" := by simpa using hact
    simp [pollLoop, h0, pollTraceN]
  | succ n ih =>
    intro i fuel hnon hact hlt
    obtain ⟨f, rfl⟩ : ∃ f, fuel = f + 1 := ⟨fuel - 1, by omega⟩
    have h0 : statuses i ≠ "ACTIVE" := by simpa using hnon 0 (by omega)
    have hrec := ih (i + 1) f
      (fun j hj => by
        have h := hnon (j + 1) (by omega)
        rw [show i + 1 + j = i + (j + 1) by omega]
        exact h)
      (by rw [show i + 1 + n = i + (n + 1) by omega]; exact hact)
      (by omega)
    simp [pollLoop, h0, hrec, pollTraceN]

theorem pollLoop_never_active (statuses : Nat → String) (ffn : String)
    (h : ∀ n, statuses n ≠ "ACTIVE") :
    ∀ fuel i, pollLoop statuses ffn fuel i = none := by
  intro fuel
  induction fuel with
  | zero => intro i; rfl
  | succ f ih => intro i; simp [pollLoop, h i, ih]

theorem pollTraceN_count_get (ffn : String) :
    ∀ N, (pollTraceN ffn N).countP is_get_ev = N + 1 := by
  intro N
  induction N with
  | zero => simp [pollTraceN, is_get_ev]
  | succ n ih => simp [pollTraceN, List.countP_cons, is_get_ev, is_sleep_ev, ih]

theorem pollTraceN_count_sleep (ffn : String) :
    ∀ N, (pollTraceN ffn N).countP is_sleep_ev = N := by
  intro N
  induction N with
  | zero => simp [pollTraceN, is_sleep_ev]
  | succ n ih => simp [pollTraceN, List.countP_cons, is_get_ev, is_sleep_ev, ih]

theorem pollTraceN_count_call (ffn : String) :
    ∀ N, (pollTraceN ffn N).countP is_call_ev = 0 := by
  intro N
  induction N with
  | zero => simp [pollTraceN, is_call_ev]
  | succ n ih => simp [pollTraceN, List.countP_cons, is_call_ev, ih]

theorem pollTraceN_sleep_5 (ffn : String) :
    ∀ N s, Event.sleep s ∈ pollTraceN ffn N → s = 5 := by
  intro N
  induction N with
  | zero => intro s hs; simp [pollTraceN] at hs
  | succ n ih =>
    intro s hs
    simp only [pollTraceN, List.mem_cons] at hs
    rcases hs with h | h | h
    · exact absurd h (by simp)
    · simpa using h
    · exact ih s h

/-- C8: with the instance attributes set, a registry that reports a
non-ACTIVE status to the first N gets and ACTIVE to the next one makes
invoke_sync produce exactly the poll trace of N+1 gets with a fixed
5-second sleep between consecutive gets, followed by the invocation call;
and a registry that never reports ACTIVE makes the poll loop run forever
(no amount of fuel lets invoke_sync return). -/
theorem c8_poll_until_active (f p l nm payload : String) (resp : CallResponse)
    (tb te : Nat) (statuses : Nat → String) (N fuel : Nat)
    (hnon : ∀ i, i < N → statuses i ≠ "ACTIVE")
    (hact : statuses N = "ACTIVE") (hfuel : N < fuel) :
    (invoke_sync ⟨some f, some p, some l⟩ nm payload statuses fuel resp tb te
        = some (pollTraceN (full_func_name p l f) N
            ++ [Event.registry_call (full_func_name p l f)],
          invoke_outcome resp nm tb te))
    ∧ (pollTraceN (full_func_name p l f) N).countP is_get_ev = N + 1
    ∧ (pollTraceN (full_func_name p l f) N).countP is_sleep_ev = N
    ∧ (∀ s, Event.sleep s ∈ pollTraceN (full_func_name p l f) N → s = 5)
    ∧ (∀ statuses2 : Nat → String, (∀ n, statuses2 n ≠ "ACTIVE") → ∀ fuel2,
        invoke_sync ⟨some f, some p, some l⟩ nm payload statuses2 fuel2 resp tb te
          = none) := by
  have hpoll := pollLoop_active statuses (full_func_name p l f) N 0 fuel
    (fun j hj => by simpa using hnon j hj) (by simpa using hact) hfuel
  refine ⟨?_, pollTraceN_count_get _ N, pollTraceN_count_sleep _ N,
    pollTraceN_sleep_5 _ N, ?_⟩
  · simp [invoke_sync, invoke_full_name, hpoll]
  · intro statuses2 h2 fuel2
    simp [invoke_sync, invoke_full_name, pollLoop_never_active statuses2 _ h2]

/-- A registry status sequence that is ACTIVE from the third get onwards. -/
def statuses0 : Nat → String := fun n => if n < 2 then "DEPLOYING" else "ACTIVE"

/-- A call response with an absent error field. -/
def resp_ok : CallResponse := ⟨"42", none⟩

/-- Witness for C8: with two non-ACTIVE polls the loop issues exactly three
gets and then the call. -/
theorem c8_poll_until_active_witness :
    (∀ i, i < 2 → statuses0 i ≠ "ACTIVE") ∧ statuses0 2 = "ACTIVE" ∧ 2 < 4
    ∧ invoke_sync ⟨some "f", some "p", some "l"⟩ "nm" "pl" statuses0 4 resp_ok 3 9
        = some (pollTraceN (full_func_name "p" "l" "f") 2
            ++ [Event.registry_call (full_func_name "p" "l" "f")],
          invoke_outcome resp_ok "nm" 3 9) :=
  ⟨by decide, by decide, by decide,
    (c8_poll_until_active "f" "p" "l" "nm" "pl" resp_ok 3 9 statuses0 2 4
      (by decide) (by decide) (by decide)).1⟩

theorem pollLoop_no_call (statuses : Nat → String) (ffn : String) :
    ∀ fuel i tr, pollLoop statuses ffn fuel i = some tr →
      tr.countP is_call_ev = 0 := by
  intro fuel
  induction fuel with
  | zero => intro i tr h; simp [pollLoop] at h
  | succ f ih =>
    intro i tr h
    rw [pollLoop] at h
    by_cases hs : statuses i = "ACTIVE"
    · rw [if_pos hs] at h
      injection h with h2
      subst h2
      simp [is_call_ev]
    · rw [if_neg hs, Option.map_eq_some'] at h
      obtain ⟨tr2, htr2, rfl⟩ := h
      simp [List.countP_cons, is_call_ev, ih (i + 1) tr2 htr2]

theorem invoke_error_check_iff (resp : CallResponse) :
    invoke_error_check resp = true ↔ ∃ e, resp.error = some e ∧ e ≠ "" := by
  cases he : resp.error with
  | none => simp [invoke_error_check, he]
  | some e => simp [invoke_error_check, he, bne_iff_ne]

/-- C7: whenever invoke_sync completes (attributes set, poll finished), it
raises exactly when the call response carries a non-empty error field; an
absent or empty-string error field means success, returning the response's
result payload together with the client-measured time te - tb in
microseconds; and the trace carries exactly one invocation call, so a
failed invocation is not retried. -/
theorem c7_error_handling (f p l nm payload : String) (statuses : Nat → String)
    (fuel : Nat) (resp : CallResponse) (tb te : Nat)
    (tr : List Event) (out : Except InvokeError InvokeResult)
    (h : invoke_sync ⟨some f, some p, some l⟩ nm payload statuses fuel resp tb te
        = some (tr, out)) :
    ((∃ e, resp.error = some e ∧ e ≠ "")
        ↔ out = .error (.invocation_failed nm))
    ∧ ((¬ ∃ e, resp.error = some e ∧ e ≠ "") →
        out = .ok ⟨resp.result, te - tb⟩)
    ∧ tr.countP is_call_ev = 1 := by
  simp only [invoke_sync, invoke_full_name] at h
  cases hp : pollLoop statuses (full_func_name p l f) fuel 0 with
  | none => rw [hp] at h; simp at h
  | some ptrace =>
    rw [hp] at h
    simp only [Option.some.injEq, Prod.mk.injEq] at h
    obtain ⟨htr, hout⟩ := h
    subst htr
    subst hout
    have hcall : ptrace.countP is_call_ev = 0 :=
      pollLoop_no_call statuses _ fuel 0 ptrace hp
    refine ⟨?_, ?_, ?_⟩
    · rw [← invoke_error_check_iff]
      cases hchk : invoke_error_check resp <;> simp [invoke_outcome, hchk]
    · rw [← invoke_error_check_iff]
      intro hne
      have hchk : invoke_error_check resp = false := by
        cases hchk : invoke_error_check resp
        · rfl
        · exact absurd hchk hne
      simp [invoke_outcome, hchk]
    · simp [List.countP_append, List.countP_cons, is_call_ev, hcall]

/-- A call response with a non-empty error field. -/
def resp_err : CallResponse := ⟨"", some "boom"⟩

/-- Witness for C7 at a concrete failing response. -/
theorem c7_error_handling_witness :
    (invoke_sync ⟨some "f", some "p", some "l"⟩ "nm" "pl" statuses0 4 resp_err 3 9
        = some (pollTraceN (full_func_name "p" "l" "f") 2
            ++ [Event.registry_call (full_func_name "p" "l" "f")],
          invoke_outcome resp_err "nm" 3 9))
    ∧ (((∃ e, resp_err.error = some e ∧ e ≠ "")
          ↔ invoke_outcome resp_err "nm" 3 9
              = .error (.invocation_failed "nm"))
        ∧ ((¬ ∃ e, resp_err.error = some e ∧ e ≠ "") →
            invoke_outcome resp_err "nm" 3 9 = .ok ⟨resp_err.result, 9 - 3⟩)
        ∧ (pollTraceN (full_func_name "p" "l" "f") 2
            ++ [Event.registry_call (full_func_name "p" "l" "f")]).countP
              is_call_ev = 1) :=
  ⟨by rfl,
    c7_error_handling "f" "p" "l" "nm" "pl" statuses0 4 resp_err 3 9 _ _ (by rfl)⟩

/-- C3: no method of the GCP class ever assigns self.func_name, so from a
fresh instance any sequence of method calls leaves it unset; invoke_sync
then fails with an AttributeError (and an empty trace) whenever func_name,
project_name or location is unset; and when all three are set, the full
name polled and called is built solely from the instance attributes - the
name argument influences nothing but the raised error's logged name. -/
theorem c3_func_name_never_assigned (cfg : GCPConfig) :
    (∀ (m : Method) (st : GCPState),
        (method_step cfg m st).func_name = st.func_name)
    ∧ (∀ (ms : List Method) (st : GCPState), st.func_name = none →
        (run_methods cfg ms st).func_name = none)
    ∧ (∀ (st : GCPState) (nm payload : String) (statuses : Nat → String)
        (fuel : Nat) (resp : CallResponse) (tb te : Nat),
        st.func_name = none →
        ∃ attr, invoke_sync st nm payload statuses fuel resp tb te
          = some ([], .error (.attribute_error attr)))
    ∧ (∀ (f p l n1 n2 payload : String) (statuses : Nat → String) (fuel : Nat)
        (resp : CallResponse) (tb te : Nat) (tr : List Event)
        (out : Except InvokeError InvokeResult),
        invoke_sync ⟨some f, some p, some l⟩ n1 payload statuses fuel resp tb te
            = some (tr, out) →
        invoke_sync ⟨some f, some p, some l⟩ n2 payload statuses fuel resp tb te
            = some (tr, invoke_outcome resp n2 tb te)
        ∧ out = invoke_outcome resp n1 tb te
        ∧ (∀ nm2, Event.registry_call nm2 ∈ tr → nm2 = full_func_name p l f)) := by
  have hstep : ∀ (m : Method) (st : GCPState),
      (method_step cfg m st).func_name = st.func_name := by
    intro m st; cases m <;> rfl
  refine ⟨hstep, ?_, ?_, ?_⟩
  · intro ms
    induction ms with
    | nil => intro st h; exact h
    | cons m ms ih =>
      intro st h
      have : (method_step cfg m st).func_name = none := (hstep m st).trans h
      exact ih (method_step cfg m st) this
  · rintro ⟨fn, pn, loc⟩ nm payload statuses fuel resp tb te h
    simp only at h
    subst h
    cases pn with
    | none => exact ⟨"project_name", rfl⟩
    | some p =>
      cases loc with
      | none => exact ⟨"location", rfl⟩
      | some l => exact ⟨"func_name", rfl⟩
  · intro f p l n1 n2 payload statuses fuel resp tb te tr out h
    simp only [invoke_sync, invoke_full_name] at h ⊢
    cases hp : pollLoop statuses (full_func_name p l f) fuel 0 with
    | none => rw [hp] at h; simp at h
    | some ptrace =>
      rw [hp] at h
      simp only [Option.some.injEq, Prod.mk.injEq] at h
      obtain ⟨htr, hout⟩ := h
      subst htr
      subst hout
      refine ⟨rfl, rfl, ?_⟩
      intro nm2 hm
      rcases List.mem_append.mp hm with hm | hm
      · have h0 : ptrace.countP is_call_ev = 0 :=
          pollLoop_no_call statuses _ fuel 0 ptrace hp
        have := (List.countP_eq_zero.mp h0) _ hm
        simp [is_call_ev] at this
      · simpa using hm

/-- Witness for C3: a fresh instance, taken through initialize and
get_function, still has no func_name, and its invoke_sync raises an
AttributeError with an empty trace. -/
theorem c3_func_name_never_assigned_witness :
    ((run_methods cfg0 [Method.init, Method.get_function]
        initial_state).func_name = none)
    ∧ (initial_state.func_name = none)
    ∧ (∃ attr, invoke_sync initial_state "nm" "pl" statuses0 4 resp_ok 3 9
        = some ([], .error (.attribute_error attr))) :=
  ⟨(c3_func_name_never_assigned cfg0).2.1 [Method.init, Method.get_function]
      initial_state rfl,
    rfl,
    (c3_func_name_never_assigned cfg0).2.2.1 initial_state "nm" "pl" statuses0
      4 resp_ok 3 9 rfl⟩

/-- C9: download_metrics queries the backend over the guard-banded interval
from start_time - 60 to end_time + 60, appends exactly the (mean, count)
pairs of the matching series' points to the target function's two bucket
lists, leaves every other function's buckets untouched, and composing two
calls accumulates the points of both windows after the pre-existing ones. -/
theorem c9_metrics_window_and_accumulation (fname : String)
    (dcfg : List (String × String)) (s1 e1 : Int)
    (backend : String → TimeInterval → List TimeSeries)
    (requests : String → FunctionMetrics) :
    (download_metrics fname dcfg s1 e1 backend requests).1 = ⟨s1 - 60, e1 + 60⟩
    ∧ ((download_metrics fname dcfg s1 e1 backend requests).2 fname).execution_times
        = (requests fname).execution_times
          ++ collect_points fname (backend exec_time_filter ⟨s1 - 60, e1 + 60⟩)
    ∧ ((download_metrics fname dcfg s1 e1 backend requests).2 fname).user_memory_bytes
        = (requests fname).user_memory_bytes
          ++ collect_points fname (backend user_memory_filter ⟨s1 - 60, e1 + 60⟩)
    ∧ (∀ other, other ≠ fname →
        (download_metrics fname dcfg s1 e1 backend requests).2 other
          = requests other)
    ∧ (∀ (dcfg2 : List (String × String)) (s2 e2 : Int)
        (backend2 : String → TimeInterval → List TimeSeries),
        ((download_metrics fname dcfg2 s2 e2 backend2
            (download_metrics fname dcfg s1 e1 backend requests).2).2
              fname).execution_times
          = (requests fname).execution_times
            ++ collect_points fname (backend exec_time_filter ⟨s1 - 60, e1 + 60⟩)
            ++ collect_points fname (backend2 exec_time_filter ⟨s2 - 60, e2 + 60⟩)) := by
  refine ⟨rfl, by simp [download_metrics], by simp [download_metrics], ?_, ?_⟩
  · intro other hother
    simp [download_metrics, hother]
  · intro dcfg2 s2 e2 backend2
    simp [download_metrics]

/-- A concrete telemetry backend: one matching and one non-matching series
for every query. -/
def backend0 : String → TimeInterval → List TimeSeries := fun _ _ =>
  [⟨[("function_name", "f1")], [⟨10, 2⟩]⟩, ⟨[("function_name", "f2")], [⟨30, 4⟩]⟩]

/-- An empty accumulator. -/
def requests0 : String → FunctionMetrics := fun _ => ⟨[], []⟩

/-- Witness for C9 at concrete inputs: the guard-banded interval and the
untouched entry of another function. -/
theorem c9_metrics_window_and_accumulation_witness :
    ((download_metrics "f1" [] 100 200 backend0 requests0).1
        = ⟨(100 : Int) - 60, (200 : Int) + 60⟩)
    ∧ ("f2" ≠ "f1")
    ∧ (download_metrics "f1" [] 100 200 backend0 requests0).2 "f2"
        = requests0 "f2" :=
  ⟨(c9_metrics_window_and_accumulation "f1" [] 100 200 backend0 requests0).1,
    by decide,
    (c9_metrics_window_and_accumulation "f1" [] 100 200 backend0
      requests0).2.2.2.1 "f2" (by decide)⟩

end SeBSGCP
